import Mathlib

/-!
# Verification of `nwpc_workflow_log_processor/spark/cli/node_tree.py`

A shallow embedding of the CLI dispatcher module `node_tree.py`:

* date-string handling (`datetime.datetime.strptime(s, "%Y-%m-%d")` guarded by
  Python truthiness, lines 33-36 and 86-89 of the source),
* the two pipeline entry points `generate_node_tree_from_database` and
  `generate_node_tree_from_file` (external collaborators are parameters of an
  `Env` structure and every collaborator invocation is recorded as an event),
* the result sink `_sink_result` (print / JSON file),
* the two click commands `database` and `file` (the latter as `cli_file`).

External collaborators (`create_spark_session`, `load_records_from_rmdb`,
`load_records_from_file`, `calculate_node_tree`, `bunch.to_dict`) live in other
packages; they are modelled as uninterpreted function parameters.  Exceptions are
modelled with `Except String`, the error string naming the Python exception
class (`ValueError`, `KeyError`, `IndexError`, `BadArgumentUsage`, `TypeError`).
-/

set_option autoImplicit false

/-- A Python `datetime.datetime` value restricted to the fields this module
touches.  `strptime(s, "%Y-%m-%d")` always yields midnight. -/
structure PyDateTime where
  year : Nat
  month : Nat
  day : Nat
  hour : Nat
  minute : Nat
  second : Nat
  deriving DecidableEq, Repr

/-- A calendar date, the key type of the bunch map returned by the external
`calculate_node_tree` collaborator (spec: "a mapping from a calendar date to a
tree-like bunch object"). -/
structure Date where
  year : Nat
  month : Nat
  day : Nat
  deriving DecidableEq, Repr

/-- ASCII decimal digit test, the `\d` character class of the CPython
`_strptime` regex (restricted to ASCII digits, which is what `%Y-%m-%d`
inputs are in this CLI). -/
def isAsciiDigit (c : Char) : Bool :=
  c = '0' || c = '1' || c = '2' || c = '3' || c = '4' ||
  c = '5' || c = '6' || c = '7' || c = '8' || c = '9'

/-- Numeric value of an ASCII digit character. -/
def digitVal : Char → Nat
  | '0' => 0 | '1' => 1 | '2' => 2 | '3' => 3 | '4' => 4
  | '5' => 5 | '6' => 6 | '7' => 7 | '8' => 8 | '9' => 9
  | _ => 0

/-- The `%Y` directive of CPython `_strptime`: exactly four decimal digits
(regex `\d\d\d\d`). -/
def parseYear : List Char → Option (Nat × List Char)
  | c1 :: c2 :: c3 :: c4 :: rest =>
    if isAsciiDigit c1 && isAsciiDigit c2 && isAsciiDigit c3 && isAsciiDigit c4 then
      some (1000 * digitVal c1 + 100 * digitVal c2 + 10 * digitVal c3 + digitVal c4, rest)
    else
      none
  | _ => none

/-- The `%m` directive of CPython `_strptime`: regex `1[0-2]|0[1-9]|[1-9]`,
alternatives tried in order. -/
def parseMonth : List Char → Option (Nat × List Char)
  | [] => none
  | c :: rest =>
    if c = '1' then
      match rest with
      | c2 :: rest2 =>
        if c2 = '0' ∨ c2 = '1' ∨ c2 = '2' then some (10 + digitVal c2, rest2)
        else some (1, rest)
      | [] => some (1, [])
    else if c = '0' then
      match rest with
      | c2 :: rest2 =>
        if isAsciiDigit c2 ∧ c2 ≠ '0' then some (digitVal c2, rest2) else none
      | [] => none
    else if isAsciiDigit c ∧ c ≠ '0' then
      some (digitVal c, rest)
    else
      none

/-- The `%d` directive of CPython `_strptime`: regex `3[01]|[12]\d|0[1-9]|[1-9]`,
alternatives tried in order. -/
def parseDay : List Char → Option (Nat × List Char)
  | [] => none
  | c :: rest =>
    if c = '3' then
      match rest with
      | c2 :: rest2 =>
        if c2 = '0' ∨ c2 = '1' then some (30 + digitVal c2, rest2)
        else some (3, rest)
      | [] => some (3, [])
    else if c = '1' ∨ c = '2' then
      match rest with
      | c2 :: rest2 =>
        if isAsciiDigit c2 then some (10 * digitVal c + digitVal c2, rest2)
        else some (digitVal c, rest)
      | [] => some (digitVal c, [])
    else if c = '0' then
      match rest with
      | c2 :: rest2 =>
        if isAsciiDigit c2 ∧ c2 ≠ '0' then some (digitVal c2, rest2) else none
      | [] => none
    else if isAsciiDigit c ∧ c ≠ '0' then
      some (digitVal c, rest)
    else
      none

/-- Gregorian leap-year rule, as in Python's `datetime`. -/
def isLeap (y : Nat) : Bool :=
  (y % 4 = 0 && y % 100 ≠ 0) || y % 400 = 0

/-- Number of days of month `m` of year `y`, as validated by the
`datetime.datetime` constructor. -/
def daysInMonth (y m : Nat) : Nat :=
  match m with
  | 2 => if isLeap y then 29 else 28
  | 4 => 30
  | 6 => 30
  | 9 => 30
  | 11 => 30
  | _ => 31

/-- Model of `datetime.datetime.strptime(s, "%Y-%m-%d")`: match the `_strptime` regex
`(\d\d\d\d)-(1[0-2]|0[1-9]|[1-9])-(3[01]|[12]\d|0[1-9]|[1-9])` against the whole
string ("unconverted data remains" otherwise), then build the datetime, whose
constructor requires `MINYEAR = 1 ≤ year` and a day that exists in the month.
Returns `none` where Python raises `ValueError`. -/
def expectDash : List Char → Option (List Char)
  | '-' :: r => some r
  | _ => none

def strptimeYmd (s : String) : Option PyDateTime :=
  (parseYear s.data).bind fun yr =>
    (expectDash yr.2).bind fun r2 =>
      (parseMonth r2).bind fun mr =>
        (expectDash mr.2).bind fun r4 =>
          (parseDay r4).bind fun dr =>
            if dr.2 = [] then
              if 1 ≤ yr.1 ∧ dr.1 ≤ daysInMonth yr.1 mr.1 then
                some ⟨yr.1, mr.1, dr.1, 0, 0, 0⟩
              else
                none
            else
              none

/-- Modelled from the spec's words ("dates are parsed strictly as
`YYYY-MM-DD`", "For any valid `YYYY-MM-DD` string, parsing yields the
corresponding date at midnight"): the strict zero-padded format — four digit
year, dash, two digit month, dash, two digit day, forming a real calendar
date.  Used only to compare the spec's claim against the code's `strptimeYmd`. -/
def specParseYMD (s : String) : Option (Nat × Nat × Nat) :=
  match s.data with
  | [y1, y2, y3, y4, s1, m1, m2, s2, d1, d2] =>
    if s1 = '-' ∧ s2 = '-' ∧
       isAsciiDigit y1 ∧ isAsciiDigit y2 ∧ isAsciiDigit y3 ∧ isAsciiDigit y4 ∧
       isAsciiDigit m1 ∧ isAsciiDigit m2 ∧ isAsciiDigit d1 ∧ isAsciiDigit d2 then
      if 1 ≤ 1000 * digitVal y1 + 100 * digitVal y2 + 10 * digitVal y3 + digitVal y4 ∧
         1 ≤ 10 * digitVal m1 + digitVal m2 ∧ 10 * digitVal m1 + digitVal m2 ≤ 12 ∧
         1 ≤ 10 * digitVal d1 + digitVal d2 ∧
         10 * digitVal d1 + digitVal d2
           ≤ daysInMonth
               (1000 * digitVal y1 + 100 * digitVal y2 + 10 * digitVal y3 + digitVal y4)
               (10 * digitVal m1 + digitVal m2) then
        some (1000 * digitVal y1 + 100 * digitVal y2 + 10 * digitVal y3 + digitVal y4,
          10 * digitVal m1 + digitVal m2, 10 * digitVal d1 + digitVal d2)
      else
        none
    else
      none
  | _ => none

example : strptimeYmd "2020-01-01" = some ⟨2020, 1, 1, 0, 0, 0⟩ := by decide
example : strptimeYmd "2020-1-1" = some ⟨2020, 1, 1, 0, 0, 0⟩ := by decide
example : strptimeYmd "2020-02-30" = none := by decide
example : strptimeYmd "2020-02-29" = some ⟨2020, 2, 29, 0, 0, 0⟩ := by decide
example : strptimeYmd "2019-02-29" = none := by decide
example : strptimeYmd "" = none := by decide
example : strptimeYmd "2020-01-01x" = none := by decide
example : strptimeYmd "2020-13-01" = none := by decide
example : strptimeYmd "0000-01-01" = none := by decide
example : specParseYMD "2020-1-1" = none := by decide
example : specParseYMD "2020-02-29" = some (2020, 2, 29) := by decide
example : specParseYMD "2019-02-29" = none := by decide

/-- The value held by the Python variables `begin_date` / `end_date` after the
truthiness-guarded reparse: `None`, a string left untouched (only the empty
string survives the `if begin_date:` guard unparsed), or a parsed datetime. -/
inductive DateArg where
  | none
  | str (s : String)
  | dt (t : PyDateTime)
  deriving DecidableEq, Repr

/-- Lines 33-36 / 86-89 of `node_tree.py`:

    if begin_date:
        begin_date = datetime.datetime.strptime(begin_date, "%Y-%m-%d")

`None` and `""` are falsy and skip the parse; any other string is parsed and a
parse failure raises `ValueError`. -/
def pyIfDate (d : Option String) : Except String DateArg :=
  match d with
  | Option.none => Except.ok DateArg.none
  | Option.some s =>
    if s = "" then Except.ok (DateArg.str s)
    else
      match strptimeYmd s with
      | some t => Except.ok (DateArg.dt t)
      | none => Except.error "ValueError"

example : pyIfDate (some "") = Except.ok (DateArg.str "") := rfl
example : pyIfDate none = Except.ok DateArg.none := rfl
example : pyIfDate (some "2020-01-02") = Except.ok (DateArg.dt ⟨2020, 1, 2, 0, 0, 0⟩) := rfl
example : pyIfDate (some "oops") = Except.error "ValueError" := rfl

/-- Fuel-driven digit extraction (structural recursion so that the kernel can
evaluate it). -/
def natToDigitsGo : Nat → Nat → List Nat
  | 0, _ => []
  | fuel + 1, n => if n < 10 then [n] else natToDigitsGo fuel (n / 10) ++ [n % 10]

theorem natToDigitsGo_congr :
    ∀ f1 f2 n : Nat, n < f1 → n < f2 → natToDigitsGo f1 n = natToDigitsGo f2 n := by
  intro f1
  induction f1 with
  | zero => intro f2 n h1 _; omega
  | succ f ih =>
    intro f2 n h1 h2
    match f2 with
    | 0 => omega
    | f2' + 1 =>
      simp only [natToDigitsGo]
      by_cases h : n < 10
      · simp [h]
      · have hd : n / 10 < n := Nat.div_lt_self (by omega) (by omega)
        simp only [if_neg h]
        rw [ih f2' (n / 10) (by omega) (by omega)]

/-- Decimal digits of `n`, most significant first (the digits `repr(n)`
prints). -/
def natToDigits (n : Nat) : List Nat :=
  natToDigitsGo (n + 1) n

/-- The recursion equation of `natToDigits`. -/
theorem natToDigits_eq (n : Nat) :
    natToDigits n = if n < 10 then [n] else natToDigits (n / 10) ++ [n % 10] := by
  by_cases h : n < 10
  · simp [natToDigits, natToDigitsGo, h]
  · have hd : n / 10 < n := Nat.div_lt_self (by omega) (by omega)
    have h1 : natToDigitsGo (n + 1) n = natToDigitsGo n (n / 10) ++ [n % 10] := by
      simp [natToDigitsGo, h]
    rw [natToDigits, h1, if_neg h, natToDigits,
      natToDigitsGo_congr n (n / 10 + 1) (n / 10) (by omega) (by omega)]

/-- The ASCII character of a decimal digit. -/
def digitChar : Nat → Char
  | 0 => '0' | 1 => '1' | 2 => '2' | 3 => '3' | 4 => '4'
  | 5 => '5' | 6 => '6' | 7 => '7' | 8 => '8' | 9 => '9'
  | _ => '?'

/-- The characters of the unpadded decimal rendering of `n` (glibc `%Y`). -/
def natChars (n : Nat) : List Char :=
  (natToDigits n).map digitChar

/-- Zero-padded-to-two decimal rendering (glibc `%m` / `%d`). -/
def pad2 (n : Nat) : List Char :=
  if n < 10 then ['0', digitChar n] else natChars n

/-- Model of `date.strftime("%Y-%m-%d")` on a calendar date, as used for the JSON
object keys at line 121 of `node_tree.py` (CPython on glibc: unpadded year,
two-digit zero-padded month and day). -/
def strftimeYmdKey (d : Date) : String :=
  ⟨natChars d.year ++ '-' :: (pad2 d.month ++ '-' :: pad2 d.day)⟩

example : strftimeYmdKey ⟨2020, 1, 31⟩ = "2020-01-31" := by decide
example : strftimeYmdKey ⟨2020, 12, 5⟩ = "2020-12-05" := by decide

/-- Numeric value of a most-significant-first digit list. -/
def digitsVal (ds : List Nat) : Nat :=
  ds.foldl (fun a d => 10 * a + d) 0

/-- Numeric value of a most-significant-first list of digit characters. -/
def charsVal (cs : List Char) : Nat :=
  cs.foldl (fun a c => 10 * a + digitVal c) 0

theorem digitsVal_natToDigits (n : Nat) : digitsVal (natToDigits n) = n := by
  induction n using Nat.strong_induction_on with
  | _ n ih =>
    rw [natToDigits_eq]
    by_cases h : n < 10
    · simp [digitsVal, h]
    · have hd : n / 10 < n := Nat.div_lt_self (by omega) (by omega)
      have hv := ih (n / 10) hd
      simp only [if_neg h, digitsVal, List.foldl_append] at *
      rw [hv]
      simp only [List.foldl_cons, List.foldl_nil]
      omega

theorem natToDigits_lt (n : Nat) : ∀ d ∈ natToDigits n, d < 10 := by
  induction n using Nat.strong_induction_on with
  | _ n ih =>
    rw [natToDigits_eq]
    by_cases h : n < 10
    · simp [h]
    · have hd : n / 10 < n := Nat.div_lt_self (by omega) (by omega)
      simp only [if_neg h, List.mem_append, List.mem_singleton]
      intro d hm
      rcases hm with hm | hm
      · exact ih (n / 10) hd d hm
      · omega

theorem digitVal_digitChar (d : Nat) (h : d < 10) : digitVal (digitChar d) = d := by
  interval_cases d <;> rfl

theorem charsVal_map_digitChar (ds : List Nat) (h : ∀ d ∈ ds, d < 10) :
    charsVal (ds.map digitChar) = digitsVal ds := by
  have aux : ∀ (l : List Nat), (∀ d ∈ l, d < 10) → ∀ a : Nat,
      (l.map digitChar).foldl (fun a c => 10 * a + digitVal c) a
        = l.foldl (fun a d => 10 * a + d) a := by
    intro l
    induction l with
    | nil => intro _ _; rfl
    | cons x xs ihx =>
      intro hl a
      simp only [List.map_cons, List.foldl_cons]
      rw [digitVal_digitChar x (hl x (by simp)), ihx (fun d hd => hl d (by simp [hd]))]
  exact aux ds h 0

theorem charsVal_natChars (n : Nat) : charsVal (natChars n) = n := by
  rw [natChars, charsVal_map_digitChar _ (natToDigits_lt n), digitsVal_natToDigits]

theorem natToDigits_two (n : Nat) (h1 : 10 ≤ n) (h2 : n < 100) :
    natToDigits n = [n / 10, n % 10] := by
  rw [natToDigits_eq, if_neg (by omega), natToDigits_eq, if_pos (by omega)]
  rfl

theorem pad2_length (n : Nat) (h : n < 100) : (pad2 n).length = 2 := by
  by_cases h10 : n < 10
  · simp [pad2, h10]
  · simp [pad2, h10, natChars, natToDigits_two n (by omega) h]

theorem charsVal_pad2 (n : Nat) (h : n < 100) : charsVal (pad2 n) = n := by
  by_cases h10 : n < 10
  · simp only [pad2, if_pos h10, charsVal, List.foldl_cons, List.foldl_nil]
    rw [digitVal_digitChar n h10]
    simp [digitVal]
  · rw [pad2, if_neg h10, charsVal_natChars]

/-- The calendar-date well-formedness the external calculator's date keys
satisfy (a real month and day). -/
abbrev ValidDate (d : Date) : Prop :=
  1 ≤ d.month ∧ d.month ≤ 12 ∧ 1 ≤ d.day ∧ d.day ≤ 31

/-- Formatting with `strftime("%Y-%m-%d")` is injective on calendar dates: two distinct valid
dates never collide on the same JSON key. -/
theorem strftimeYmdKey_inj (a b : Date) (ha : ValidDate a) (hb : ValidDate b)
    (h : strftimeYmdKey a = strftimeYmdKey b) : a = b := by
  obtain ⟨_, ham, _, had⟩ := ha
  obtain ⟨_, hbm, _, hbd⟩ := hb
  have hdata : natChars a.year ++ '-' :: (pad2 a.month ++ '-' :: pad2 a.day)
      = natChars b.year ++ '-' :: (pad2 b.month ++ '-' :: pad2 b.day) :=
    congrArg String.data h
  have hlen : ('-' :: (pad2 a.month ++ '-' :: pad2 a.day)).length
      = ('-' :: (pad2 b.month ++ '-' :: pad2 b.day)).length := by
    simp [pad2_length a.month (by omega), pad2_length b.month (by omega),
      pad2_length a.day (by omega), pad2_length b.day (by omega)]
  obtain ⟨hyear, htail⟩ := List.append_inj' hdata hlen
  have hy : a.year = b.year := by
    rw [← charsVal_natChars a.year, ← charsVal_natChars b.year, hyear]
  have htail2 : pad2 a.month ++ '-' :: pad2 a.day = pad2 b.month ++ '-' :: pad2 b.day :=
    List.tail_eq_of_cons_eq htail
  obtain ⟨hmonth, hday⟩ := List.append_inj htail2
    (by rw [pad2_length a.month (by omega), pad2_length b.month (by omega)])
  have hm : a.month = b.month := by
    rw [← charsVal_pad2 a.month (by omega), ← charsVal_pad2 b.month (by omega), hmonth]
  have hd : a.day = b.day := by
    have := List.tail_eq_of_cons_eq hday
    rw [← charsVal_pad2 a.day (by omega), ← charsVal_pad2 b.day (by omega), this]
  cases a; cases b
  simp_all


theorem isAsciiDigit_cases (c : Char) (h : isAsciiDigit c = true) :
    c = '0' ∨ c = '1' ∨ c = '2' ∨ c = '3' ∨ c = '4' ∨
    c = '5' ∨ c = '6' ∨ c = '7' ∨ c = '8' ∨ c = '9' := by
  simp [isAsciiDigit] at h
  tauto

theorem parseYear_four (c1 c2 c3 c4 : Char) (rest : List Char)
    (h1 : isAsciiDigit c1 = true) (h2 : isAsciiDigit c2 = true)
    (h3 : isAsciiDigit c3 = true) (h4 : isAsciiDigit c4 = true) :
    parseYear (c1 :: c2 :: c3 :: c4 :: rest)
      = some (1000 * digitVal c1 + 100 * digitVal c2 + 10 * digitVal c3 + digitVal c4, rest) := by
  simp [parseYear, h1, h2, h3, h4]

theorem parseMonth_two (m1 m2 : Char) (rest : List Char)
    (h1 : isAsciiDigit m1 = true) (h2 : isAsciiDigit m2 = true)
    (hlo : 1 ≤ 10 * digitVal m1 + digitVal m2)
    (hhi : 10 * digitVal m1 + digitVal m2 ≤ 12) :
    parseMonth (m1 :: m2 :: rest) = some (10 * digitVal m1 + digitVal m2, rest) := by
  rcases isAsciiDigit_cases m1 h1 with rfl | rfl | rfl | rfl | rfl | rfl | rfl | rfl | rfl | rfl <;>
    rcases isAsciiDigit_cases m2 h2 with rfl | rfl | rfl | rfl | rfl | rfl | rfl | rfl | rfl | rfl <;>
      first
        | (simp only [digitVal] at hlo hhi; omega)
        | (simp [parseMonth, isAsciiDigit, digitVal])

theorem parseDay_two (d1 d2 : Char) (rest : List Char)
    (h1 : isAsciiDigit d1 = true) (h2 : isAsciiDigit d2 = true)
    (hlo : 1 ≤ 10 * digitVal d1 + digitVal d2)
    (hhi : 10 * digitVal d1 + digitVal d2 ≤ 31) :
    parseDay (d1 :: d2 :: rest) = some (10 * digitVal d1 + digitVal d2, rest) := by
  rcases isAsciiDigit_cases d1 h1 with rfl | rfl | rfl | rfl | rfl | rfl | rfl | rfl | rfl | rfl <;>
    rcases isAsciiDigit_cases d2 h2 with rfl | rfl | rfl | rfl | rfl | rfl | rfl | rfl | rfl | rfl <;>
      first
        | (simp only [digitVal] at hlo hhi; omega)
        | (simp [parseDay, isAsciiDigit, digitVal])

/-- Every strictly formatted `YYYY-MM-DD` date string is accepted by the
code's `%Y-%m-%d` parse, yielding the same calendar date (at midnight). -/
theorem specParseYMD_strptime (s : String) (y m d : Nat)
    (h : specParseYMD s = some (y, m, d)) :
    strptimeYmd s = some ⟨y, m, d, 0, 0, 0⟩ := by
  obtain ⟨cs⟩ := s
  rcases cs with _ | ⟨y1, _ | ⟨y2, _ | ⟨y3, _ | ⟨y4, _ | ⟨s1, _ | ⟨m1, _ | ⟨m2, _ |
    ⟨s2, _ | ⟨d1, _ | ⟨d2, _ | ⟨e, t⟩⟩⟩⟩⟩⟩⟩⟩⟩⟩⟩
  case mk.cons.cons.cons.cons.cons.cons.cons.cons.cons.cons.nil =>
    simp only [specParseYMD] at h
    split_ifs at h with hc hv
    · obtain ⟨hs1, hs2, hy1, hy2, hy3, hy4, hm1, hm2, hd1, hd2⟩ := hc
      obtain ⟨hvy, hvm1, hvm2, hvd1, hvd2⟩ := hv
      subst hs1
      subst hs2
      simp only [Option.some.injEq, Prod.mk.injEq] at h
      obtain ⟨rfl, rfl, rfl⟩ := h
      have h31 : daysInMonth
          (1000 * digitVal y1 + 100 * digitVal y2 + 10 * digitVal y3 + digitVal y4)
          (10 * digitVal m1 + digitVal m2) ≤ 31 := by
        unfold daysInMonth
        split <;> first | omega | (split <;> omega)
      have hpy : parseYear [y1, y2, y3, y4, '-', m1, m2, '-', d1, d2]
          = some (1000 * digitVal y1 + 100 * digitVal y2 + 10 * digitVal y3 + digitVal y4,
              ['-', m1, m2, '-', d1, d2]) :=
        parseYear_four y1 y2 y3 y4 _ hy1 hy2 hy3 hy4
      have hpm : parseMonth [m1, m2, '-', d1, d2]
          = some (10 * digitVal m1 + digitVal m2, ['-', d1, d2]) :=
        parseMonth_two m1 m2 _ hm1 hm2 hvm1 hvm2
      have hpd : parseDay [d1, d2] = some (10 * digitVal d1 + digitVal d2, []) :=
        parseDay_two d1 d2 _ hd1 hd2 hvd1 (by omega)
      simp [strptimeYmd, hpy, hpm, hpd, expectDash, hvy, hvd2]
  all_goals exact absurd h (by simp [specParseYMD])

theorem parseMonth_range (cs : List Char) (r : Nat × List Char)
    (hp : parseMonth cs = some r) : 1 ≤ r.1 ∧ r.1 ≤ 12 := by
  rcases cs with _ | ⟨c, rest⟩
  · simp [parseMonth] at hp
  rcases rest with _ | ⟨c2, rest2⟩
  · simp only [parseMonth] at hp
    split_ifs at hp with hc1 hc0 hc9
    · simp only [Option.some.injEq] at hp
      subst hp
      simp
    · simp only [Option.some.injEq] at hp
      subst hp
      obtain ⟨hdig, hne⟩ := hc9
      rcases isAsciiDigit_cases c hdig with rfl | rfl | rfl | rfl | rfl | rfl | rfl | rfl | rfl | rfl <;>
        simp_all [digitVal]
  · simp only [parseMonth] at hp
    split_ifs at hp with hc1 hc2 hc0 hcd hc9
    · simp only [Option.some.injEq] at hp
      subst hp
      rcases hc2 with rfl | rfl | rfl <;> simp [digitVal]
    · simp only [Option.some.injEq] at hp
      subst hp
      simp
    · simp only [Option.some.injEq] at hp
      subst hp
      obtain ⟨hdig, hne⟩ := hcd
      rcases isAsciiDigit_cases c2 hdig with rfl | rfl | rfl | rfl | rfl | rfl | rfl | rfl | rfl | rfl <;>
        simp_all [digitVal]
    · simp only [Option.some.injEq] at hp
      subst hp
      obtain ⟨hdig, hne⟩ := hc9
      rcases isAsciiDigit_cases c hdig with rfl | rfl | rfl | rfl | rfl | rfl | rfl | rfl | rfl | rfl <;>
        simp_all [digitVal]

theorem parseDay_range (cs : List Char) (r : Nat × List Char)
    (hp : parseDay cs = some r) : 1 ≤ r.1 ∧ r.1 ≤ 39 := by
  rcases cs with _ | ⟨c, rest⟩
  · simp [parseDay] at hp
  rcases rest with _ | ⟨c2, rest2⟩
  · simp only [parseDay] at hp
    split_ifs at hp with hc3 hc12 hc0 hc9
    · simp only [Option.some.injEq] at hp
      subst hp
      simp
    · simp only [Option.some.injEq] at hp
      subst hp
      rcases hc12 with rfl | rfl <;> simp [digitVal]
    · simp only [Option.some.injEq] at hp
      subst hp
      obtain ⟨hdig, hne⟩ := hc9
      rcases isAsciiDigit_cases c hdig with rfl | rfl | rfl | rfl | rfl | rfl | rfl | rfl | rfl | rfl <;>
        simp_all [digitVal]
  · simp only [parseDay] at hp
    split_ifs at hp with hc3 hc2 hc12 hcd hc0 hcd2 hc9
    · simp only [Option.some.injEq] at hp
      subst hp
      rcases hc2 with rfl | rfl <;> simp [digitVal]
    · simp only [Option.some.injEq] at hp
      subst hp
      simp
    · simp only [Option.some.injEq] at hp
      subst hp
      rcases hc12 with rfl | rfl <;>
        (rcases isAsciiDigit_cases c2 hcd with rfl | rfl | rfl | rfl | rfl | rfl | rfl | rfl | rfl | rfl <;>
          simp [digitVal])
    · simp only [Option.some.injEq] at hp
      subst hp
      rcases hc12 with rfl | rfl <;> simp [digitVal]
    · simp only [Option.some.injEq] at hp
      subst hp
      obtain ⟨hdig, hne⟩ := hcd2
      rcases isAsciiDigit_cases c2 hdig with rfl | rfl | rfl | rfl | rfl | rfl | rfl | rfl | rfl | rfl <;>
        simp_all [digitVal]
    · simp only [Option.some.injEq] at hp
      subst hp
      obtain ⟨hdig, hne⟩ := hc9
      rcases isAsciiDigit_cases c hdig with rfl | rfl | rfl | rfl | rfl | rfl | rfl | rfl | rfl | rfl <;>
        simp_all [digitVal]

/-- The code's `%Y-%m-%d` parse always yields midnight and a real calendar
date. -/
theorem strptimeYmd_fields (s : String) (t : PyDateTime) (h : strptimeYmd s = some t) :
    t.hour = 0 ∧ t.minute = 0 ∧ t.second = 0 ∧
    1 ≤ t.year ∧ 1 ≤ t.month ∧ t.month ≤ 12 ∧ 1 ≤ t.day ∧ t.day ≤ daysInMonth t.year t.month := by
  unfold strptimeYmd at h
  rcases hpy : parseYear s.data with _ | yr
  · rw [hpy] at h; simp at h
  rw [hpy] at h
  simp only [Option.some_bind] at h
  rcases hda : expectDash yr.2 with _ | r2
  · rw [hda] at h; simp at h
  rw [hda] at h
  simp only [Option.some_bind] at h
  rcases hpm : parseMonth r2 with _ | mr
  · rw [hpm] at h; simp at h
  rw [hpm] at h
  simp only [Option.some_bind] at h
  rcases hdb : expectDash mr.2 with _ | r4
  · rw [hdb] at h; simp at h
  rw [hdb] at h
  simp only [Option.some_bind] at h
  rcases hpd : parseDay r4 with _ | dr
  · rw [hpd] at h; simp at h
  rw [hpd] at h
  simp only [Option.some_bind] at h
  split_ifs at h with he hv
  simp only [Option.some.injEq] at h
  subst h
  exact ⟨rfl, rfl, rfl, hv.1, (parseMonth_range r2 mr hpm).1, (parseMonth_range r2 mr hpm).2,
    (parseDay_range r4 dr hpd).1, hv.2⟩

/-- A Python dict with string keys as it appears in the YAML-loaded task file:
an insertion-ordered association list.  A value `Option.none` models an
explicit YAML `null` (Python `None`); an absent key is simply missing. -/
abbrev PyDict : Type := List (String × Option String)

/-- First binding of key `k`, if the key is present. -/
def pyLookup (d : PyDict) (k : String) : Option (Option String) :=
  match d with
  | [] => none
  | (k', v) :: rest => if k' = k then some v else pyLookup rest k

/-- Python `d.get(k, None)`: `None` both for an absent key and for an
explicit `null` value. -/
def pyGet (d : PyDict) (k : String) : Option String :=
  match pyLookup d k with
  | none => none
  | some v => v

/-- The external collaborators consumed by `node_tree.py`, as uninterpreted
functions: `C` the configuration type, `R` the record-RDD type, `B` the bunch
type, `D` the type of `bunch.to_dict()` results.  Sessions are identified by a
numeric handle. -/
structure Env (C R B D : Type) where
  create_spark_session : C → Except String Nat
  load_records_from_rmdb : C → Nat → Option String → Option String →
    DateArg → DateArg → Option String → Except String R
  load_records_from_file : C → Option String → Nat → Option String → Option String →
    DateArg → DateArg → Option String → Except String R
  calculate_node_tree : C → R → Nat → Option String → Except String (List (Date × B))
  to_dict : B → D

/-- One observable collaborator invocation or I/O effect of the module. -/
inductive Ev (C R B D : Type) where
  | create_session (config : C)
  | load_rmdb (config : C) (session : Nat) (owner repo : Option String)
      (beginDate endDate : DateArg) (repoType : Option String)
  | load_file (config : C) (logFile : Option String) (session : Nat)
      (owner repo : Option String) (beginDate endDate : DateArg) (repoType : Option String)
  | calc (config : C) (records : R) (session : Nat) (repoType : Option String)
  | stop (session : Nat)
  | log_elapsed
  | travel (bunch : B)
  | write_json (path : String) (doc : List (String × D))
  deriving DecidableEq

/-- Is this event the `spark.stop()` call? -/
def isStopEv {C R B D : Type} : Ev C R B D → Bool
  | Ev.stop _ => true
  | _ => false

/-- Is this event an output effect of `_sink_result` (a pre-order traversal
print or a JSON file write)? -/
def isSinkEv {C R B D : Type} : Ev C R B D → Bool
  | Ev.travel _ => true
  | Ev.write_json _ _ => true
  | _ => false

/-- Lines 126-159 of `node_tree.py`: create the session, load records from
the relational database, calculate the node tree, stop the session, log the
elapsed time and return the bunch map.  An exception from a collaborator
propagates immediately; the collaborator invocations made so far are the
trace. -/
def generate_node_tree_from_database {C R B D : Type} (env : Env C R B D) (config : C)
    (owner repo : Option String) (begin_date end_date : DateArg) (repo_type : Option String) :
    List (Ev C R B D) × Except String (List (Date × B)) :=
  match env.create_spark_session config with
  | Except.error e => ([Ev.create_session config], Except.error e)
  | Except.ok spark =>
    match env.load_records_from_rmdb config spark owner repo begin_date end_date repo_type with
    | Except.error e =>
      ([Ev.create_session config,
        Ev.load_rmdb config spark owner repo begin_date end_date repo_type], Except.error e)
    | Except.ok record_rdd =>
      match env.calculate_node_tree config record_rdd spark repo_type with
      | Except.error e =>
        ([Ev.create_session config,
          Ev.load_rmdb config spark owner repo begin_date end_date repo_type,
          Ev.calc config record_rdd spark repo_type], Except.error e)
      | Except.ok bunch_map =>
        ([Ev.create_session config,
          Ev.load_rmdb config spark owner repo begin_date end_date repo_type,
          Ev.calc config record_rdd spark repo_type,
          Ev.stop spark, Ev.log_elapsed], Except.ok bunch_map)

/-- Lines 162-197 of `node_tree.py`: as `generate_node_tree_from_database`,
but loading records from a log file. -/
def generate_node_tree_from_file {C R B D : Type} (env : Env C R B D) (config : C)
    (log_file : Option String) (owner repo : Option String)
    (begin_date end_date : DateArg) (repo_type : Option String) :
    List (Ev C R B D) × Except String (List (Date × B)) :=
  match env.create_spark_session config with
  | Except.error e => ([Ev.create_session config], Except.error e)
  | Except.ok spark =>
    match env.load_records_from_file config log_file spark owner repo begin_date end_date repo_type with
    | Except.error e =>
      ([Ev.create_session config,
        Ev.load_file config log_file spark owner repo begin_date end_date repo_type], Except.error e)
    | Except.ok record_rdd =>
      match env.calculate_node_tree config record_rdd spark repo_type with
      | Except.error e =>
        ([Ev.create_session config,
          Ev.load_file config log_file spark owner repo begin_date end_date repo_type,
          Ev.calc config record_rdd spark repo_type], Except.error e)
      | Except.ok bunch_map =>
        ([Ev.create_session config,
          Ev.load_file config log_file spark owner repo begin_date end_date repo_type,
          Ev.calc config record_rdd spark repo_type,
          Ev.stop spark, Ev.log_elapsed], Except.ok bunch_map)

/-- Python dict assignment `result[k] = v`: overwrite in place if the key is
present (keeping its position), append otherwise. -/
def pyDictSet {D : Type} (res : List (String × D)) (k : String) (v : D) :
    List (String × D) :=
  if res.any (fun p => p.1 = k) then
    res.map (fun p => if p.1 = k then (k, v) else p)
  else
    res ++ [(k, v)]

/-- Lines 119-122 of `node_tree.py`: the `result` dict built by the file
sink, keyed by `date.strftime("%Y-%m-%d")` with values `bunch.to_dict()`, in
bunch-map iteration order. -/
def sink_result_doc {B D : Type} (to_dict : B → D) (bunch_map : List (Date × B)) :
    List (String × D) :=
  bunch_map.foldl (fun res p => pyDictSet res (strftimeYmdKey p.1) (to_dict p.2)) []

/-- Lines 112-123 of `node_tree.py` (`_sink_result`): `print` mode performs a
pre-order traversal of every bunch; `file` mode opens `kwargs["output_file"]`
(`open(None)` raises `TypeError`) and dumps the result dict as one JSON
document; any other output type does nothing.  The sink's output type comes
from a task file in file mode, so it is `Option String` (`none` models a YAML
`null`). -/
def sink_result {C R B D : Type} (env : Env C R B D) (output_type : Option String)
    (bunch_map : List (Date × B)) (output_file : Option String) :
    List (Ev C R B D) × Except String Unit :=
  if output_type = some "print" then
    (bunch_map.map (fun p => Ev.travel p.2), Except.ok ())
  else if output_type = some "file" then
    match output_file with
    | none => ([], Except.error "TypeError")
    | some path =>
      ([Ev.write_json path (sink_result_doc env.to_dict bunch_map)], Except.ok ())
  else
    ([], Except.ok ())

/-- Lines 68-73 of `node_tree.py`: extraction of the run parameters from the
task file's `task` section — `owner`, `repo`, `begin_date`, `end_date` via
`.get(key, None)` and the repo type via `.get("workflow_type", "ecflow")`
(the default applies only when the key is absent). -/
def extractTaskParams (task_config : PyDict) :
    Option String × Option String × Option String × Option String × Option String :=
  (pyGet task_config "owner",
   pyGet task_config "repo",
   pyGet task_config "begin_date",
   pyGet task_config "end_date",
   match pyLookup task_config "workflow_type" with
   | none => some "ecflow"
   | some v => v)

/-- The task descriptor loaded from the task file: sections `task`, `source`
(a sequence of source descriptors) and `sink` (a sequence of sink
descriptors). -/
structure TaskFile where
  task : PyDict
  source : List PyDict
  sink : List PyDict
  deriving DecidableEq

/-- Lines 54-109 of `node_tree.py` (the `file` command), after the two
`load_config` calls: extract the task parameters, read
`source[0]["file_path"]` (`IndexError` on an empty sequence, `KeyError` on a
missing key), read `sink[0]["type"]`, parse the two guarded dates, check
`file_path` of the sink when its type is `"file"` (`BadArgumentUsage`
otherwise), run the pipeline and sink the result. -/
def cli_file {C R B D : Type} (env : Env C R B D) (config : C) (task : TaskFile) :
    List (Ev C R B D) × Except String Unit :=
  match task.source.head? with
  | none => ([], Except.error "IndexError")
  | some current_source_config =>
    match pyLookup current_source_config "file_path" with
    | none => ([], Except.error "KeyError")
    | some log_file =>
      match task.sink.head? with
      | none => ([], Except.error "IndexError")
      | some current_sink_config =>
        match pyLookup current_sink_config "type" with
        | none => ([], Except.error "KeyError")
        | some output_type =>
          match pyIfDate (extractTaskParams task.task).2.2.1 with
          | Except.error e => ([], Except.error e)
          | Except.ok begin_arg =>
            match pyIfDate (extractTaskParams task.task).2.2.2.1 with
            | Except.error e => ([], Except.error e)
            | Except.ok end_arg =>
              match (if output_type = some "file" then
                       match pyGet current_sink_config "file_path" with
                       | none => Except.error "BadArgumentUsage"
                       | some "" => Except.error "BadArgumentUsage"
                       | some fp => Except.ok (some fp)
                     else Except.ok none : Except String (Option String)) with
              | Except.error e => ([], Except.error e)
              | Except.ok output_file =>
                match generate_node_tree_from_file env config log_file
                    (extractTaskParams task.task).1 (extractTaskParams task.task).2.1
                    begin_arg end_arg (extractTaskParams task.task).2.2.2.2 with
                | (tr, Except.error e) => (tr, Except.error e)
                | (tr, Except.ok bunch_map) =>
                  match sink_result env output_type bunch_map output_file with
                  | (str, sres) => (tr ++ str, sres)

/-- Lines 21-51 of `node_tree.py` (the `database` command), after option
parsing: parse the two guarded dates (`click` supplies `owner`, `repo` and
`repo_type` as required strings and `output_type` defaults to `"print"`),
run the pipeline and sink the result. -/
def database {C R B D : Type} (env : Env C R B D) (owner repo repo_type : String)
    (begin_date end_date : Option String) (config : C)
    (output_type : String) (output_file : Option String) :
    List (Ev C R B D) × Except String Unit :=
  match pyIfDate begin_date with
  | Except.error e => ([], Except.error e)
  | Except.ok begin_arg =>
    match pyIfDate end_date with
    | Except.error e => ([], Except.error e)
    | Except.ok end_arg =>
      match generate_node_tree_from_database env config (some owner) (some repo)
          begin_arg end_arg (some repo_type) with
      | (tr, Except.error e) => (tr, Except.error e)
      | (tr, Except.ok bunch_map) =>
        match sink_result env (some output_type) bunch_map output_file with
        | (str, sres) => (tr ++ str, sres)

theorem pyDictSet_fresh {D : Type} (res : List (String × D)) (k : String) (v : D)
    (h : ∀ p ∈ res, p.1 ≠ k) : pyDictSet res k v = res ++ [(k, v)] := by
  unfold pyDictSet
  rw [if_neg]
  simp only [List.any_eq_true, not_exists, not_and]
  intro p hp
  simp [h p hp]

theorem sink_result_doc_eq_map {B D : Type} (to_dict : B → D) (bm : List (Date × B))
    (hkeys : (bm.map (fun p => strftimeYmdKey p.1)).Nodup) :
    sink_result_doc to_dict bm = bm.map (fun p => (strftimeYmdKey p.1, to_dict p.2)) := by
  have aux : ∀ (l : List (Date × B)) (acc : List (String × D)),
      (l.map (fun p => strftimeYmdKey p.1)).Nodup →
      (∀ q ∈ acc, ∀ p ∈ l, q.1 ≠ strftimeYmdKey p.1) →
      l.foldl (fun res p => pyDictSet res (strftimeYmdKey p.1) (to_dict p.2)) acc
        = acc ++ l.map (fun p => (strftimeYmdKey p.1, to_dict p.2)) := by
    intro l
    induction l with
    | nil => intro acc _ _; simp
    | cons hd tl ih =>
      intro acc hnd hfresh
      simp only [List.map_cons, List.nodup_cons] at hnd
      obtain ⟨hhd, hnd'⟩ := hnd
      simp only [List.foldl_cons]
      rw [pyDictSet_fresh acc (strftimeYmdKey hd.1) (to_dict hd.2)
        (fun q hq => hfresh q hq hd (by simp))]
      rw [ih (acc ++ [(strftimeYmdKey hd.1, to_dict hd.2)]) hnd' ?_]
      · simp
      · intro q hq p hp
        rcases List.mem_append.mp hq with hq | hq
        · exact hfresh q hq p (by simp [hp])
        · simp only [List.mem_singleton] at hq
          subst hq
          intro hcontra
          apply hhd
          rw [show (strftimeYmdKey hd.1 : String) = strftimeYmdKey p.1 from hcontra]
          exact List.mem_map.mpr ⟨p, hp, rfl⟩
  exact aux bm [] hkeys (by simp)

/-- C1: with `output-type=file`, the JSON document written is exactly the
bunch map rendered key-by-key: keys are the dates formatted `%Y-%m-%d`,
values the `to_dict` renderings, in map iteration order, with no extra,
missing or duplicate keys. -/
theorem claim_C1 {C R B D : Type} (env : Env C R B D) (bm : List (Date × B)) (path : String)
    (hvalid : ∀ p ∈ bm, ValidDate p.1) (hnodup : (bm.map Prod.fst).Nodup) :
    sink_result env (some "file") bm (some path)
      = ([Ev.write_json path (bm.map (fun p => (strftimeYmdKey p.1, env.to_dict p.2)))],
         Except.ok ())
    ∧ (bm.map (fun p => strftimeYmdKey p.1)).Nodup := by
  have hkeys : (bm.map (fun p => strftimeYmdKey p.1)).Nodup := by
    have hmm : bm.map (fun p => strftimeYmdKey p.1)
        = (bm.map Prod.fst).map strftimeYmdKey := by
      simp [List.map_map]
    rw [hmm]
    refine hnodup.map_on ?_
    intro x hx y hy hxy
    obtain ⟨p, hp, rfl⟩ := List.mem_map.mp hx
    obtain ⟨q, hq, rfl⟩ := List.mem_map.mp hy
    exact strftimeYmdKey_inj p.1 q.1 (hvalid p hp) (hvalid q hq) hxy
  refine ⟨?_, hkeys⟩
  have hne : (some "file" : Option String) ≠ some "print" := by decide
  simp only [sink_result, if_neg hne, if_pos rfl]
  rw [sink_result_doc_eq_map env.to_dict bm hkeys]
  simp

/-- A concrete collaborator environment (all collaborators succeed) used by
the witnesses. -/
def envW : Env Nat Nat Nat Nat :=
  ⟨fun _ => Except.ok 0,
   fun _ _ _ _ _ _ _ => Except.ok 0,
   fun _ _ _ _ _ _ _ _ => Except.ok 0,
   fun _ _ _ _ => Except.ok [],
   fun b => b⟩

/-- A concrete two-day bunch map used by the witnesses. -/
def bmW : List (Date × Nat) := [(⟨2020, 1, 1⟩, 7), (⟨2020, 1, 2⟩, 9)]

theorem claim_C1_witness :
    (∀ p ∈ bmW, ValidDate p.1) ∧ (bmW.map Prod.fst).Nodup ∧
    sink_result envW (some "file") bmW (some "out.json")
      = ([Ev.write_json "out.json" [("2020-01-01", (7 : Nat)), ("2020-01-02", 9)]],
         Except.ok ()) :=
  ⟨by decide, by decide,
    ((claim_C1 envW bmW "out.json" (by decide) (by decide)).1).trans (by rfl)⟩

/-- C6: with `output-type=print`, the sink's effect trace is exactly one
pre-order traversal per bunch, in map iteration order; under distinct
bunches each is traversed exactly once and nothing else is traversed. -/
theorem claim_C6 {C R B D : Type} [DecidableEq C] [DecidableEq R] [DecidableEq B] [DecidableEq D]
    (env : Env C R B D) (bm : List (Date × B)) (f : Option String) :
    sink_result env (some "print") bm f = (bm.map (fun p => Ev.travel p.2), Except.ok ())
    ∧ ((bm.map Prod.snd).Nodup → ∀ b : B,
        (sink_result env (some "print") bm f).1.count (Ev.travel (C := C) (R := R) (D := D) b)
          = if b ∈ bm.map Prod.snd then 1 else 0) := by
  have htrace : sink_result env (some "print") bm f
      = (bm.map (fun p => Ev.travel p.2), Except.ok ()) := by
    simp [sink_result]
  refine ⟨htrace, ?_⟩
  intro hnodup b
  rw [htrace]
  have hinj : Function.Injective (Ev.travel (C := C) (R := R) (B := B) (D := D)) := by
    intro a b h
    injection h
  have hmm : bm.map (fun p => Ev.travel (C := C) (R := R) (D := D) p.2)
      = (bm.map Prod.snd).map (Ev.travel (C := C) (R := R) (D := D)) := by
    simp [List.map_map]
  rw [hmm, List.count_map_of_injective _ _ hinj]
  by_cases hb : b ∈ bm.map Prod.snd
  · rw [if_pos hb, List.count_eq_one_of_mem hnodup hb]
  · rw [if_neg hb, List.count_eq_zero_of_not_mem hb]

theorem claim_C6_witness :
    sink_result envW (some "print") bmW none
      = ([Ev.travel 7, Ev.travel 9], Except.ok ())
    ∧ (bmW.map Prod.snd).Nodup
    ∧ (sink_result envW (some "print") bmW none).1.count (Ev.travel 7) = 1 :=
  ⟨((claim_C6 envW bmW none).1).trans (by rfl), by decide,
    by
      have h := (claim_C6 envW bmW none).2 (by decide) 7
      simpa using h⟩

/-- C4: whenever a pipeline entry point returns without an exception, the
trace contains exactly one `spark.stop()` call and the returned value is
exactly the bunch map that `calculate_node_tree` produced. -/
theorem claim_C4 {C R B D : Type} (env : Env C R B D) (config : C) (owner repo : Option String)
    (bd ed : DateArg) (rt : Option String) (log_file : Option String) :
    (∀ tr bm, generate_node_tree_from_database env config owner repo bd ed rt
        = (tr, Except.ok bm) →
      tr.countP isStopEv = 1 ∧
      ∃ records spark, Ev.calc config records spark rt ∈ tr ∧
        env.calculate_node_tree config records spark rt = Except.ok bm)
    ∧ (∀ tr bm, generate_node_tree_from_file env config log_file owner repo bd ed rt
        = (tr, Except.ok bm) →
      tr.countP isStopEv = 1 ∧
      ∃ records spark, Ev.calc config records spark rt ∈ tr ∧
        env.calculate_node_tree config records spark rt = Except.ok bm) := by
  constructor
  · intro tr bm h
    unfold generate_node_tree_from_database at h
    split at h
    · simp at h
    rename_i spark hcs
    split at h
    · simp at h
    rename_i records hload
    split at h
    · simp at h
    rename_i bm' hcalc
    simp only [Prod.mk.injEq, Except.ok.injEq] at h
    obtain ⟨rfl, rfl⟩ := h
    constructor
    · simp [List.countP_cons, isStopEv]
    · exact ⟨records, spark, by simp, hcalc⟩
  · intro tr bm h
    unfold generate_node_tree_from_file at h
    split at h
    · simp at h
    rename_i spark hcs
    split at h
    · simp at h
    rename_i records hload
    split at h
    · simp at h
    rename_i bm' hcalc
    simp only [Prod.mk.injEq, Except.ok.injEq] at h
    obtain ⟨rfl, rfl⟩ := h
    constructor
    · simp [List.countP_cons, isStopEv]
    · exact ⟨records, spark, by simp, hcalc⟩

theorem claim_C4_witness :
    generate_node_tree_from_database envW 0 (some "wangdp") (some "grapes")
        DateArg.none DateArg.none (some "ecflow")
      = ([Ev.create_session 0,
          Ev.load_rmdb 0 0 (some "wangdp") (some "grapes") DateArg.none DateArg.none (some "ecflow"),
          Ev.calc 0 0 0 (some "ecflow"), Ev.stop 0, Ev.log_elapsed], Except.ok [])
    ∧ (([Ev.create_session 0,
        Ev.load_rmdb 0 0 (some "wangdp") (some "grapes") DateArg.none DateArg.none (some "ecflow"),
        Ev.calc 0 0 0 (some "ecflow"), Ev.stop 0, Ev.log_elapsed] :
          List (Ev Nat Nat Nat Nat)).countP isStopEv = 1) :=
  ⟨rfl,
    ((claim_C4 envW 0 (some "wangdp") (some "grapes") DateArg.none DateArg.none
        (some "ecflow") none).1 _ [] rfl).1⟩

/-- C5: when record loading or tree calculation raises, the exception
propagates out of the pipeline entry point and `spark.stop()` is never
called on that path. -/
theorem claim_C5 {C R B D : Type} (env : Env C R B D) (config : C) (owner repo : Option String)
    (bd ed : DateArg) (rt : Option String) (log_file : Option String)
    (spark : Nat) (records : R) (e : String) :
    (env.create_spark_session config = Except.ok spark →
      env.load_records_from_rmdb config spark owner repo bd ed rt = Except.error e →
      generate_node_tree_from_database env config owner repo bd ed rt
          = ([Ev.create_session config, Ev.load_rmdb config spark owner repo bd ed rt],
             Except.error e)
        ∧ (generate_node_tree_from_database env config owner repo bd ed rt).1.countP isStopEv = 0)
    ∧ (env.create_spark_session config = Except.ok spark →
      env.load_records_from_rmdb config spark owner repo bd ed rt = Except.ok records →
      env.calculate_node_tree config records spark rt = Except.error e →
      generate_node_tree_from_database env config owner repo bd ed rt
          = ([Ev.create_session config, Ev.load_rmdb config spark owner repo bd ed rt,
              Ev.calc config records spark rt], Except.error e)
        ∧ (generate_node_tree_from_database env config owner repo bd ed rt).1.countP isStopEv = 0)
    ∧ (env.create_spark_session config = Except.ok spark →
      env.load_records_from_file config log_file spark owner repo bd ed rt = Except.error e →
      generate_node_tree_from_file env config log_file owner repo bd ed rt
          = ([Ev.create_session config,
              Ev.load_file config log_file spark owner repo bd ed rt], Except.error e)
        ∧ (generate_node_tree_from_file env config log_file owner repo bd ed rt).1.countP isStopEv = 0)
    ∧ (env.create_spark_session config = Except.ok spark →
      env.load_records_from_file config log_file spark owner repo bd ed rt = Except.ok records →
      env.calculate_node_tree config records spark rt = Except.error e →
      generate_node_tree_from_file env config log_file owner repo bd ed rt
          = ([Ev.create_session config,
              Ev.load_file config log_file spark owner repo bd ed rt,
              Ev.calc config records spark rt], Except.error e)
        ∧ (generate_node_tree_from_file env config log_file owner repo bd ed rt).1.countP isStopEv = 0) := by
  refine ⟨?_, ?_, ?_, ?_⟩
  · intro hcs hload
    have hres : generate_node_tree_from_database env config owner repo bd ed rt
        = ([Ev.create_session config, Ev.load_rmdb config spark owner repo bd ed rt],
           Except.error e) := by
      simp [generate_node_tree_from_database, hcs, hload]
    refine ⟨hres, ?_⟩
    rw [hres]
    simp [List.countP_cons, isStopEv]
  · intro hcs hload hcalc
    have hres : generate_node_tree_from_database env config owner repo bd ed rt
        = ([Ev.create_session config, Ev.load_rmdb config spark owner repo bd ed rt,
            Ev.calc config records spark rt], Except.error e) := by
      simp [generate_node_tree_from_database, hcs, hload, hcalc]
    refine ⟨hres, ?_⟩
    rw [hres]
    simp [List.countP_cons, isStopEv]
  · intro hcs hload
    have hres : generate_node_tree_from_file env config log_file owner repo bd ed rt
        = ([Ev.create_session config,
            Ev.load_file config log_file spark owner repo bd ed rt], Except.error e) := by
      simp [generate_node_tree_from_file, hcs, hload]
    refine ⟨hres, ?_⟩
    rw [hres]
    simp [List.countP_cons, isStopEv]
  · intro hcs hload hcalc
    have hres : generate_node_tree_from_file env config log_file owner repo bd ed rt
        = ([Ev.create_session config,
            Ev.load_file config log_file spark owner repo bd ed rt,
            Ev.calc config records spark rt], Except.error e) := by
      simp [generate_node_tree_from_file, hcs, hload, hcalc]
    refine ⟨hres, ?_⟩
    rw [hres]
    simp [List.countP_cons, isStopEv]

/-- A collaborator environment whose record loaders always raise, used by the
C5 witness. -/
def envFail : Env Nat Nat Nat Nat :=
  ⟨fun _ => Except.ok 0,
   fun _ _ _ _ _ _ _ => Except.error "OperationalError",
   fun _ _ _ _ _ _ _ _ => Except.error "FileNotFoundError",
   fun _ _ _ _ => Except.ok [],
   fun b => b⟩

theorem claim_C5_witness :
    envFail.create_spark_session 0 = Except.ok 0
    ∧ envFail.load_records_from_rmdb 0 0 none none DateArg.none DateArg.none (some "ecflow")
        = Except.error "OperationalError"
    ∧ generate_node_tree_from_database envFail 0 none none DateArg.none DateArg.none (some "ecflow")
        = ([Ev.create_session 0,
            Ev.load_rmdb 0 0 none none DateArg.none DateArg.none (some "ecflow")],
           Except.error "OperationalError")
    ∧ (generate_node_tree_from_database envFail 0 none none DateArg.none DateArg.none
        (some "ecflow")).1.countP isStopEv = 0 :=
  ⟨rfl, rfl,
    ((claim_C5 envFail 0 none none DateArg.none DateArg.none (some "ecflow") none 0 0
        "OperationalError").1 rfl rfl).1,
    ((claim_C5 envFail 0 none none DateArg.none DateArg.none (some "ecflow") none 0 0
        "OperationalError").1 rfl rfl).2⟩

/-- C7: the `file` command's behaviour depends only on the `task` section and
the first source and sink descriptors: two task files agreeing on those are
indistinguishable, whatever their remaining source/sink entries. -/
theorem claim_C7 {C R B D : Type} (env : Env C R B D) (config : C) (t1 t2 : TaskFile)
    (htask : t1.task = t2.task) (hsrc : t1.source.head? = t2.source.head?)
    (hsink : t1.sink.head? = t2.sink.head?) :
    cli_file env config t1 = cli_file env config t2 := by
  unfold cli_file
  rw [htask, hsrc, hsink]

/-- Two task files agreeing on the task section and the heads of `source` and
`sink`, but with different trailing source/sink descriptors. -/
def taskA : TaskFile :=
  ⟨[("owner", some "wangdp")],
   [[("file_path", some "x.log")]],
   [[("type", some "print")]]⟩

def taskB : TaskFile :=
  ⟨[("owner", some "wangdp")],
   [[("file_path", some "x.log")], [("file_path", some "ignored.log")]],
   [[("type", some "print")], [("type", some "file")], []]⟩

theorem claim_C7_witness :
    taskA.task = taskB.task
    ∧ taskA.source.head? = taskB.source.head?
    ∧ taskA.sink.head? = taskB.sink.head?
    ∧ taskA ≠ taskB
    ∧ cli_file envW 0 taskA = cli_file envW 0 taskB :=
  ⟨rfl, rfl, rfl, by decide, claim_C7 envW 0 taskA taskB rfl rfl rfl⟩

/-- C8: in file mode an omitted `workflow_type` key defaults the repo type to
`"ecflow"`, and omitted `owner`/`repo`/`begin_date`/`end_date` keys default
to `None` without raising; an absent begin date is passed through the date
guard unchanged as `None`. -/
theorem claim_C8 (tc : PyDict) :
    (pyLookup tc "workflow_type" = none → (extractTaskParams tc).2.2.2.2 = some "ecflow")
    ∧ (pyLookup tc "owner" = none → (extractTaskParams tc).1 = none)
    ∧ (pyLookup tc "repo" = none → (extractTaskParams tc).2.1 = none)
    ∧ (pyLookup tc "begin_date" = none → (extractTaskParams tc).2.2.1 = none)
    ∧ (pyLookup tc "end_date" = none → (extractTaskParams tc).2.2.2.1 = none)
    ∧ (pyLookup tc "begin_date" = none →
        pyIfDate (extractTaskParams tc).2.2.1 = Except.ok DateArg.none) := by
  refine ⟨?_, ?_, ?_, ?_, ?_, ?_⟩ <;>
    (intro h; simp [extractTaskParams, pyGet, h, pyIfDate])

theorem claim_C8_witness :
    pyLookup ([] : PyDict) "workflow_type" = none
    ∧ (extractTaskParams []).2.2.2.2 = some "ecflow"
    ∧ (extractTaskParams []).1 = none
    ∧ (extractTaskParams []).2.1 = none
    ∧ (extractTaskParams []).2.2.1 = none
    ∧ (extractTaskParams []).2.2.2.1 = none
    ∧ pyIfDate (extractTaskParams []).2.2.1 = Except.ok DateArg.none :=
  ⟨rfl, (claim_C8 []).1 rfl, (claim_C8 []).2.1 rfl, (claim_C8 []).2.2.1 rfl,
   (claim_C8 []).2.2.2.1 rfl, (claim_C8 []).2.2.2.2.1 rfl, (claim_C8 []).2.2.2.2.2 rfl⟩

/-- Claim C3 exactly as stated: every valid (strict) `YYYY-MM-DD` string
parses to its date at midnight, and EVERY malformed string raises an error
that aborts the run. -/
def c3Statement : Prop :=
  ∀ s : String,
    (∀ y m d, specParseYMD s = some (y, m, d) →
      pyIfDate (some s) = Except.ok (DateArg.dt ⟨y, m, d, 0, 0, 0⟩))
    ∧ (specParseYMD s = none → ∃ e, pyIfDate (some s) = Except.error e)

/-- C3 fails as stated: the empty string is malformed yet is skipped by the
truthiness guard without an error, and `"2020-1-1"` is not strict
`YYYY-MM-DD` yet `%Y-%m-%d` accepts it. -/
theorem claim_C3_counterexample :
    specParseYMD "" = none
    ∧ pyIfDate (some "") = Except.ok (DateArg.str "")
    ∧ specParseYMD "2020-1-1" = none
    ∧ pyIfDate (some "2020-1-1") = Except.ok (DateArg.dt ⟨2020, 1, 1, 0, 0, 0⟩)
    ∧ ¬ c3Statement := by
  refine ⟨rfl, rfl, rfl, rfl, ?_⟩
  intro h
  obtain ⟨e, he⟩ := (h "").2 rfl
  rw [show pyIfDate (some "") = Except.ok (DateArg.str "") from rfl] at he
  exact Except.noConfusion he

/-- C3 amended: restricted to nonempty strings.  Every strict `YYYY-MM-DD`
date string parses to the corresponding date at midnight; more generally
every string the `%Y-%m-%d` format accepts (month and day may also be a
single digit) parses to its date at midnight; every other nonempty string
raises `ValueError`.  (The empty string is skipped unparsed by the truthiness
guard.) -/
theorem claim_C3_amended (s : String) (hs : s ≠ "") :
    (∀ y m d, specParseYMD s = some (y, m, d) →
      pyIfDate (some s) = Except.ok (DateArg.dt ⟨y, m, d, 0, 0, 0⟩))
    ∧ (∀ t, strptimeYmd s = some t →
      pyIfDate (some s) = Except.ok (DateArg.dt t)
        ∧ t.hour = 0 ∧ t.minute = 0 ∧ t.second = 0)
    ∧ (strptimeYmd s = none → pyIfDate (some s) = Except.error "ValueError") := by
  refine ⟨?_, ?_, ?_⟩
  · intro y m d h
    have hst := specParseYMD_strptime s y m d h
    simp [pyIfDate, hs, hst]
  · intro t ht
    have hf := strptimeYmd_fields s t ht
    exact ⟨by simp [pyIfDate, hs, ht], hf.1, hf.2.1, hf.2.2.1⟩
  · intro hnone
    simp [pyIfDate, hs, hnone]

theorem claim_C3_amended_witness :
    ("2020-02-29" ≠ "")
    ∧ specParseYMD "2020-02-29" = some (2020, 2, 29)
    ∧ pyIfDate (some "2020-02-29") = Except.ok (DateArg.dt ⟨2020, 2, 29, 0, 0, 0⟩) :=
  ⟨by decide, by decide,
    (claim_C3_amended "2020-02-29" (by decide)).1 2020 2 29 (by decide)⟩

/-- The first sink descriptor has type `"file"` but its `file_path` is
absent, `null` (Python `None`) or the empty string. -/
def sinkFileBad (task : TaskFile) : Prop :=
  ∃ sk, task.sink.head? = some sk ∧ pyLookup sk "type" = some (some "file") ∧
    (pyGet sk "file_path" = none ∨ pyGet sk "file_path" = some "")

/-- Claim C2 exactly as stated: any task file whose first sink descriptor is
a `"file"` sink without a usable `file_path` makes the command raise
`BadArgumentUsage` (and never invoke the pipeline). -/
def c2Statement : Prop :=
  ∀ (env : Env Nat Nat Nat Nat) (config : Nat) (task : TaskFile),
    sinkFileBad task →
    cli_file env config task = ([], Except.error "BadArgumentUsage")

/-- A task file with a bad `"file"` sink and, additionally, a malformed
`begin_date`. -/
def taskC2 : TaskFile :=
  ⟨[("begin_date", some "oops")],
   [[("file_path", some "a.log")]],
   [[("type", some "file")]]⟩

/-- C2 fails as stated: on `taskC2` the date parse at lines 86-89 runs before
the `file_path` check at lines 91-95, so the command raises `ValueError`, not
`BadArgumentUsage`. -/
theorem claim_C2_counterexample :
    sinkFileBad taskC2
    ∧ cli_file envW 0 taskC2 = ([], Except.error "ValueError")
    ∧ ¬ c2Statement := by
  refine ⟨⟨[("type", some "file")], rfl, rfl, Or.inl rfl⟩, rfl, ?_⟩
  intro hst
  have h2 := hst envW 0 taskC2 ⟨[("type", some "file")], rfl, rfl, Or.inl rfl⟩
  rw [show cli_file envW 0 taskC2 = ([], Except.error "ValueError") from rfl] at h2
  have h3 := congrArg Prod.snd h2
  simp at h3

/-- C2 amended: under a bad `"file"` sink the pipeline is never invoked (the
trace is empty) and the command raises; it raises `BadArgumentUsage`
specifically provided the steps that precede the check succeed (a first
source descriptor with a `file_path` key exists and both dates pass the
guarded parse). -/
theorem claim_C2_amended {C R B D : Type} (env : Env C R B D) (config : C) (task : TaskFile)
    (hbad : sinkFileBad task) :
    ((cli_file env config task).1 = [] ∧ ∃ e, (cli_file env config task).2 = Except.error e)
    ∧ (∀ src lf ba ea, task.source.head? = some src → pyLookup src "file_path" = some lf →
        pyIfDate (extractTaskParams task.task).2.2.1 = Except.ok ba →
        pyIfDate (extractTaskParams task.task).2.2.2.1 = Except.ok ea →
        cli_file env config task = ([], Except.error "BadArgumentUsage")) := by
  obtain ⟨sk, hsk, htype, hpath⟩ := hbad
  constructor
  · rcases hsrc : task.source.head? with _ | src
    · simp [cli_file, hsrc]
    rcases hlf : pyLookup src "file_path" with _ | lf
    · simp [cli_file, hsrc, hlf]
    rcases hba : pyIfDate (extractTaskParams task.task).2.2.1 with e | ba
    · simp [cli_file, hsrc, hlf, hsk, htype, hba]
    rcases hea : pyIfDate (extractTaskParams task.task).2.2.2.1 with e | ea
    · simp [cli_file, hsrc, hlf, hsk, htype, hba, hea]
    rcases hpath with hpath | hpath
    · simp [cli_file, hsrc, hlf, hsk, htype, hba, hea, hpath]
    · simp [cli_file, hsrc, hlf, hsk, htype, hba, hea, hpath]
  · intro src lf ba ea hsrc hlf hba hea
    rcases hpath with hpath | hpath
    · simp [cli_file, hsrc, hlf, hsk, htype, hba, hea, hpath]
    · simp [cli_file, hsrc, hlf, hsk, htype, hba, hea, hpath]

/-- A task file with a bad `"file"` sink and everything before the check
well-formed. -/
def taskC2ok : TaskFile :=
  ⟨[("begin_date", some "2020-01-01")],
   [[("file_path", some "a.log")]],
   [[("type", some "file"), ("file_path", some "")]]⟩

theorem claim_C2_amended_witness :
    sinkFileBad taskC2ok
    ∧ cli_file envW 0 taskC2ok = ([], Except.error "BadArgumentUsage") :=
  ⟨⟨[("type", some "file"), ("file_path", some "")], rfl, rfl, Or.inr rfl⟩,
    (claim_C2_amended envW 0 taskC2ok
        ⟨[("type", some "file"), ("file_path", some "")], rfl, rfl, Or.inr rfl⟩).2
      [("file_path", some "a.log")] (some "a.log")
      (DateArg.dt ⟨2020, 1, 1, 0, 0, 0⟩) DateArg.none rfl rfl rfl rfl⟩

/-- C9: any output type other than `"print"` and `"file"` makes the sink a
silent no-op (no traversal, no write, no error), and in file mode such a type
reaches the sink unvalidated: the command just runs the pipeline and
finishes with its status, emitting no sink effect. -/
theorem claim_C9 {C R B D : Type} (env : Env C R B D) (ot : String)
    (hp : ot ≠ "print") (hf : ot ≠ "file") :
    (∀ (bm : List (Date × B)) (f : Option String),
      sink_result env (some ot) bm f = ([], Except.ok ()))
    ∧ (∀ (config : C) (task : TaskFile) src lf sk,
        task.source.head? = some src → pyLookup src "file_path" = some lf →
        task.sink.head? = some sk → pyLookup sk "type" = some (some ot) →
        ∀ ba ea, pyIfDate (extractTaskParams task.task).2.2.1 = Except.ok ba →
          pyIfDate (extractTaskParams task.task).2.2.2.1 = Except.ok ea →
          cli_file env config task
            = ((generate_node_tree_from_file env config lf (extractTaskParams task.task).1
                  (extractTaskParams task.task).2.1 ba ea
                  (extractTaskParams task.task).2.2.2.2).1,
               match (generate_node_tree_from_file env config lf (extractTaskParams task.task).1
                  (extractTaskParams task.task).2.1 ba ea
                  (extractTaskParams task.task).2.2.2.2).2 with
               | Except.ok _ => Except.ok ()
               | Except.error e => Except.error e)) := by
  have hsink : ∀ (bm : List (Date × B)) (f : Option String),
      sink_result env (some ot) bm f = ([], Except.ok ()) := by
    intro bm f
    simp [sink_result, hp, hf]
  refine ⟨hsink, ?_⟩
  intro config task src lf sk hsrc hlf hsk htype ba ea hba hea
  rcases hgen : generate_node_tree_from_file env config lf (extractTaskParams task.task).1
      (extractTaskParams task.task).2.1 ba ea (extractTaskParams task.task).2.2.2.2
    with ⟨tr, res⟩
  rcases res with e | bm
  · simp [cli_file, hsrc, hlf, hsk, htype, hba, hea, hf, hgen]
  · simp [cli_file, hsrc, hlf, hsk, htype, hba, hea, hf, hgen, hsink]

/-- A task file whose sink type is the unknown `"csv"`. -/
def taskC9 : TaskFile :=
  ⟨[], [[("file_path", some "x.log")]], [[("type", some "csv")]]⟩

theorem claim_C9_witness :
    ("csv" ≠ "print") ∧ ("csv" ≠ "file")
    ∧ sink_result envW (some "csv") bmW none = ([], Except.ok ())
    ∧ cli_file envW 0 taskC9
        = ([Ev.create_session 0,
            Ev.load_file 0 (some "x.log") 0 none none DateArg.none DateArg.none (some "ecflow"),
            Ev.calc 0 0 0 (some "ecflow"), Ev.stop 0, Ev.log_elapsed], Except.ok ()) :=
  ⟨by decide, by decide,
    (claim_C9 envW "csv" (by decide) (by decide)).1 bmW none,
    ((claim_C9 envW "csv" (by decide) (by decide)).2 0 taskC9
        [("file_path", some "x.log")] (some "x.log") [("type", some "csv")]
        rfl rfl rfl rfl DateArg.none DateArg.none rfl rfl).trans (by rfl)⟩

/-- C10: in both commands an empty-string begin/end date is skipped by the
truthiness guard (never parsed, no error) and forwarded unchanged — as the
empty string — to the record-loading collaborator. -/
theorem claim_C10 {C R B D : Type} (env : Env C R B D) :
    pyIfDate (some "") = Except.ok (DateArg.str "")
    ∧ (∀ (owner repo rt : String) (config : C) (ot : String) (of : Option String) (spark : Nat),
        env.create_spark_session config = Except.ok spark →
        (database env owner repo rt (some "") none config ot of).1.take 2
          = [Ev.create_session config,
             Ev.load_rmdb config spark (some owner) (some repo)
               (DateArg.str "") DateArg.none (some rt)])
    ∧ (∀ (owner repo rt : String) (config : C) (ot : String) (of : Option String) (spark : Nat),
        env.create_spark_session config = Except.ok spark →
        (database env owner repo rt none (some "") config ot of).1.take 2
          = [Ev.create_session config,
             Ev.load_rmdb config spark (some owner) (some repo)
               DateArg.none (DateArg.str "") (some rt)])
    ∧ (∀ (config : C) (task : TaskFile) src lf sk (ot : Option String) (spark : Nat),
        task.source.head? = some src → pyLookup src "file_path" = some lf →
        task.sink.head? = some sk → pyLookup sk "type" = some ot → ot ≠ some "file" →
        pyGet task.task "begin_date" = some "" → pyGet task.task "end_date" = none →
        env.create_spark_session config = Except.ok spark →
        (cli_file env config task).1.take 2
          = [Ev.create_session config,
             Ev.load_file config lf spark (extractTaskParams task.task).1
               (extractTaskParams task.task).2.1 (DateArg.str "") DateArg.none
               (extractTaskParams task.task).2.2.2.2]) := by
  have hempty : pyIfDate (some "") = Except.ok (DateArg.str "") := rfl
  have hnone : pyIfDate none = Except.ok DateArg.none := rfl
  refine ⟨hempty, ?_, ?_, ?_⟩
  · intro owner repo rt config ot of spark hcs
    rcases hl : env.load_records_from_rmdb config spark (some owner) (some repo)
        (DateArg.str "") DateArg.none (some rt) with e | records
    · simp [database, hempty, hnone, generate_node_tree_from_database, hcs, hl]
    rcases hc : env.calculate_node_tree config records spark (some rt) with e | bm
    · simp [database, hempty, hnone, generate_node_tree_from_database, hcs, hl, hc]
    rcases hs : sink_result env (some ot) bm of with ⟨str, sres⟩
    simp [database, hempty, hnone, generate_node_tree_from_database, hcs, hl, hc, hs,
      List.take_append_of_le_length]
  · intro owner repo rt config ot of spark hcs
    rcases hl : env.load_records_from_rmdb config spark (some owner) (some repo)
        DateArg.none (DateArg.str "") (some rt) with e | records
    · simp [database, hempty, hnone, generate_node_tree_from_database, hcs, hl]
    rcases hc : env.calculate_node_tree config records spark (some rt) with e | bm
    · simp [database, hempty, hnone, generate_node_tree_from_database, hcs, hl, hc]
    rcases hs : sink_result env (some ot) bm of with ⟨str, sres⟩
    simp [database, hempty, hnone, generate_node_tree_from_database, hcs, hl, hc, hs,
      List.take_append_of_le_length]
  · intro config task src lf sk ot spark hsrc hlf hsk htype hot hbegin hend hcs
    have hba : pyIfDate (extractTaskParams task.task).2.2.1 = Except.ok (DateArg.str "") := by
      simp [extractTaskParams, hbegin, pyIfDate]
    have hea : pyIfDate (extractTaskParams task.task).2.2.2.1 = Except.ok DateArg.none := by
      simp [extractTaskParams, hend, pyIfDate]
    rcases hl : env.load_records_from_file config lf spark (extractTaskParams task.task).1
        (extractTaskParams task.task).2.1 (DateArg.str "") DateArg.none
        (extractTaskParams task.task).2.2.2.2 with e | records
    · simp [cli_file, hsrc, hlf, hsk, htype, hba, hea, hot,
        generate_node_tree_from_file, hcs, hl]
    rcases hc : env.calculate_node_tree config records spark
        (extractTaskParams task.task).2.2.2.2 with e | bm
    · simp [cli_file, hsrc, hlf, hsk, htype, hba, hea, hot,
        generate_node_tree_from_file, hcs, hl, hc]
    rcases hs : sink_result env ot bm none with ⟨str, sres⟩
    simp [cli_file, hsrc, hlf, hsk, htype, hba, hea, hot,
      generate_node_tree_from_file, hcs, hl, hc, hs, List.take_append_of_le_length]

theorem claim_C10_witness :
    pyIfDate (some "") = Except.ok (DateArg.str "")
    ∧ envW.create_spark_session 0 = Except.ok 0
    ∧ (database envW "wangdp" "grapes" "ecflow" (some "") none 0 "print" none).1.take 2
        = [Ev.create_session 0,
           Ev.load_rmdb 0 0 (some "wangdp") (some "grapes")
             (DateArg.str "") DateArg.none (some "ecflow")] :=
  ⟨(claim_C10 envW).1, rfl,
    (claim_C10 envW).2.1 "wangdp" "grapes" "ecflow" 0 "print" none 0 rfl⟩
